import Mathlib

/-!
Verification of the bucket-scanning and document-relocation core of the
vespa maintenance layer, against its specification (spec.md).

The repository sources available here are: the test suite of the
DocumentBucketMover / ScanIterator component
(src/searchcore/.../documentbucketmover/scaniterator_test.cpp and
bucketmover_common.h), the super-bucket key helper
(src/storage/.../common/bucket_utils.h), and three unrelated headers.
The implementations of DocumentBucketMover, ScanIterator,
PendingLidTracker and BucketDBOwner are not in the sample, so they are
modelled from the spec; wherever the test suite pins concrete behavior
that disagrees with the spec's prose, the tests are treated as the
authority and the divergence is recorded through corrected claims.
-/

namespace Vespa

/-- Modelled from the spec (§3): a bucket identifier carrying a
used-bits count and a 64-bit sort key (count bits in the low-order
positions).  The key is a natural number below 2^64; only right shifts
are applied to it here, so no modular wrap is needed. -/
structure BucketId where
  usedBits : Nat
  key : Nat
deriving DecidableEq, Repr

/-- Translated from src/storage/src/vespa/storage/common/bucket_utils.h
(get_super_bucket_key): asserts that the bucket's used-bits count is at
least the configured minimum, then returns the bucket key shifted right
by (64 - MinUsedBits).  The C++ `assert` is modelled as an `Option`
result: `none` is the fatal precondition failure, `some` the returned
value.  `MinUsedBits` (spi::BucketLimits::MinUsedBits) is not in the
sample, so it is a parameter. -/
def get_super_bucket_key (minUsedBits : Nat) (bucket_id : BucketId) : Option Nat :=
  if bucket_id.usedBits ≥ minUsedBits then
    some (bucket_id.key >>> (64 - minUsedBits))
  else
    none

/-- C8: for used-bits ≥ MinUsedBits, get_super_bucket_key returns the
64-bit key right-shifted by (64 − MinUsedBits); for used-bits below
MinUsedBits it fails the assertion (modelled as `none`) rather than
returning a value.  Purity is inherent in the embedding (the function
reads only its arguments). -/
theorem c8_super_bucket_key_spec (minUsedBits : Nat) (b : BucketId)
    (h : minUsedBits ≤ b.usedBits) :
    get_super_bucket_key minUsedBits b
      = some (b.key >>> (64 - minUsedBits))
    ∧ ∀ b' : BucketId, b'.usedBits < minUsedBits →
        get_super_bucket_key minUsedBits b' = none := by
  constructor
  · simp [get_super_bucket_key, h]
  · intro b' h'
    simp [get_super_bucket_key, Nat.not_le.mpr h']

/-- Witness for C8: evaluated at MinUsedBits = 8, a bucket with 16 used
bits and key 0xABCD shifted by 56, and a bucket with 3 used bits
failing the precondition. -/
theorem c8_super_bucket_key_spec_witness :
    (8 ≤ (BucketId.mk 16 43981).usedBits)
    ∧ (get_super_bucket_key 8 (BucketId.mk 16 43981)
        = some (43981 >>> 56)
      ∧ ∀ b' : BucketId, b'.usedBits < 8 →
          get_super_bucket_key 8 b' = none) :=
  ⟨by decide, c8_super_bucket_key_spec 8 (BucketId.mk 16 43981) (by decide)⟩

/-- The two passes of the scan iterator (spec §4.5,
scaniterator_test.cpp `ScanPass`). -/
inductive ScanPass where
  | FIRST : ScanPass
  | SECOND : ScanPass
deriving DecidableEq, Repr

/-- Modelled from the spec (§3, §4.2): one BucketDatabase entry, keyed
by the bucket's 64-bit sort key, with a document count per collection
(ready / not-ready).  The database itself is the ordered list of its
entries (ascending key, keys unique). -/
structure BucketEntry where
  key : Nat
  readyDocs : Nat
  notReadyDocs : Nat
deriving DecidableEq, Repr

/-- Spec §4.5: whether the current bucket has a nonzero document count
in the ready collection. -/
def hasReadyBucketDocs (e : BucketEntry) : Bool :=
  e.readyDocs != 0

/-- Spec §4.5: whether the current bucket has a nonzero document count
in the not-ready collection. -/
def hasNotReadyBucketDocs (e : BucketEntry) : Bool :=
  e.notReadyDocs != 0

/-- The database is sorted: entry keys strictly increase. -/
abbrev SortedDB (db : List BucketEntry) : Prop :=
  db.Pairwise (fun a b => a.key < b.key)

/-- Modelled from the spec (§4.5): the full list of buckets a
ScanIterator visits, given the pass, the optional start bucket key and
the optional end bucket key (`none` models an unset `BucketId()`).
ScanIterator's implementation is not in the sample; the visiting ranges
are pinned by scaniterator_test.cpp ("require that we can iterate from
the middle of not ready buckets", lines 253-272, and "... of ready
buckets", lines 274-293): the cursor starts at the upper bound of the
start bucket (strictly after it) and the end bucket bounds the walk
only in pass SECOND, inclusively — FIRST with start = end = bucket(2)
visits bucket(4) but not bucket(2), and SECOND with end = bucket(2)
visits bucket(2).  (The spec's prose instead describes FIRST as
[start, end) and SECOND as end-exclusive; the tests contradict that,
see the corrected claims.) -/
def scanBuckets (db : List BucketEntry) (pass : ScanPass)
    (start stop : Option Nat) : List BucketEntry :=
  db.filter (fun e =>
    (match start with
     | none => true
     | some s => decide (s < e.key))
    &&
    (match pass, stop with
     | ScanPass.SECOND, some t => decide (e.key ≤ t)
     | _, _ => true))

/-- The scan ranges exactly as the spec's §4.5 prose words them (used
only to compare the spec's description against the behavior the tests
pin down): pass FIRST visits the half-open interval [start, end) —
start inclusive, end exclusive, or to the end of the index with no end
bucket — and pass SECOND visits from the beginning up to end,
exclusive. -/
def scanBucketsClaimed (db : List BucketEntry) (pass : ScanPass)
    (start stop : Option Nat) : List BucketEntry :=
  db.filter (fun e =>
    match pass with
    | ScanPass.FIRST =>
      (match start with
       | none => true
       | some s => decide (s ≤ e.key))
      &&
      (match stop with
       | none => true
       | some t => decide (e.key < t))
    | ScanPass.SECOND =>
      (match stop with
       | none => true
       | some t => decide (e.key < t)))

/-- The database built by the test fixture `ScanFixture`
(scaniterator_test.cpp lines 166-179): two buckets holding only
not-ready documents (user buckets 2 and 4) and two holding only ready
documents (user buckets 6 and 8).  The tests observe the not-ready
buckets in ascending key order (2 before 4) and the ready buckets in
ascending key order (6 before 8); the concrete key values are not
observable in the tests, so representative keys preserving those
orders are used. -/
def testDb : List BucketEntry :=
  [⟨2, 0, 1⟩, ⟨4, 0, 1⟩, ⟨6, 1, 0⟩, ⟨8, 1, 0⟩]

/-- Sanity: the scan model reproduces the assertions of
scaniterator_test.cpp "require that we can iterate all buckets from
start to end" (lines 237-251), "... from the middle of not ready
buckets" (lines 253-272), "... from the middle of ready buckets"
(lines 274-293) and "... zero buckets" (lines 311-315) on the fixture
database. -/
theorem scan_model_matches_tests :
    ((scanBuckets testDb .FIRST none none).filter hasNotReadyBucketDocs
        = [⟨2, 0, 1⟩, ⟨4, 0, 1⟩]
      ∧ (scanBuckets testDb .FIRST none none).filter hasReadyBucketDocs
        = [⟨6, 1, 0⟩, ⟨8, 1, 0⟩])
    ∧ ((scanBuckets testDb .FIRST (some 2) (some 2)).filter hasNotReadyBucketDocs
        = [⟨4, 0, 1⟩]
      ∧ (scanBuckets testDb .SECOND none (some 2)).filter hasNotReadyBucketDocs
        = [⟨2, 0, 1⟩])
    ∧ ((scanBuckets testDb .FIRST (some 6) (some 6)).filter hasReadyBucketDocs
        = [⟨8, 1, 0⟩]
      ∧ (scanBuckets testDb .SECOND none (some 6)).filter hasReadyBucketDocs
        = [⟨6, 1, 0⟩])
    ∧ scanBuckets [] .FIRST none none = [] := by
  decide

/-- C2 counterexample: on the test database, with start = end =
key 2, the buckets the iterator visits (pinned by
scaniterator_test.cpp lines 253-272) differ in both passes from the
intervals the claim describes: the claimed FIRST range [2, 2) is empty
while the iterator visits keys 4, 6, 8, and the claimed end-exclusive
SECOND range omits key 2 while the iterator visits it. -/
theorem c2_scan_ranges_cex :
    ¬ (scanBuckets testDb .FIRST (some 2) (some 2)
          = scanBucketsClaimed testDb .FIRST (some 2) (some 2)
      ∧ scanBuckets testDb .SECOND none (some 2)
          = scanBucketsClaimed testDb .SECOND none (some 2)) := by
  decide

/-- C2 amended: a ScanIterator in pass FIRST constructed with a start
and end bucket visits exactly the buckets with key strictly greater
than the start bucket's key (start exclusive), to the end of the index
— the end bucket does not bound pass FIRST — and in pass SECOND it
visits exactly the buckets from the beginning of the index through the
end bucket's key, end inclusive; within each pass the visits are in
ascending key order. -/
theorem c2_scan_ranges (db : List BucketEntry) (s t : Nat)
    (stop? : Option Nat) (hdb : SortedDB db) :
    (∀ e, e ∈ scanBuckets db .FIRST (some s) stop? ↔ e ∈ db ∧ s < e.key)
    ∧ scanBuckets db .FIRST (some s) stop? = scanBuckets db .FIRST (some s) none
    ∧ (∀ e, e ∈ scanBuckets db .SECOND none (some t) ↔ e ∈ db ∧ e.key ≤ t)
    ∧ (scanBuckets db .FIRST (some s) stop?).Pairwise (fun a b => a.key < b.key)
    ∧ (scanBuckets db .SECOND none (some t)).Pairwise (fun a b => a.key < b.key) := by
  refine ⟨?_, ?_, ?_, ?_, ?_⟩
  · intro e
    simp [scanBuckets, List.mem_filter]
  · simp [scanBuckets]
  · intro e
    simp [scanBuckets, List.mem_filter]
  · exact hdb.sublist (List.filter_sublist _)
  · exact hdb.sublist (List.filter_sublist _)

/-- Witness for C2 amended: evaluated on the test-fixture database
with start key 2, end key 2. -/
theorem c2_scan_ranges_witness :
    SortedDB testDb
    ∧ ((∀ e, e ∈ scanBuckets testDb .FIRST (some 2) (some 2)
            ↔ e ∈ testDb ∧ 2 < e.key)
      ∧ scanBuckets testDb .FIRST (some 2) (some 2)
          = scanBuckets testDb .FIRST (some 2) none
      ∧ (∀ e, e ∈ scanBuckets testDb .SECOND none (some 2)
            ↔ e ∈ testDb ∧ e.key ≤ 2)
      ∧ (scanBuckets testDb .FIRST (some 2) (some 2)).Pairwise
          (fun a b => a.key < b.key)
      ∧ (scanBuckets testDb .SECOND none (some 2)).Pairwise
          (fun a b => a.key < b.key)) :=
  ⟨by decide, c2_scan_ranges testDb 2 2 (some 2) (by decide)⟩

/-- C5 counterexample: reading the two passes literally as the claim's
intervals — FIRST over [start, end) and SECOND over [beginning, end)
with end = start — the concatenation is not an exactly-once cover of
the database: with start = key 2 on the test database both claimed
ranges are empty, missing all four buckets. -/
theorem c5_two_pass_cover_cex :
    ¬ ((scanBucketsClaimed testDb .FIRST (some 2) (some 2)
        ++ scanBucketsClaimed testDb .SECOND none (some 2)).Perm testDb) := by
  decide

/-- C5 amended: for a FIRST pass constructed with (start, end) and a
SECOND pass with the same end, end = start, FIRST's visited buckets
followed by SECOND's visited buckets form a permutation of the whole
database — every bucket covered exactly once, none missed, none
visited twice — partitioned at start: FIRST contributes exactly the
buckets with key strictly above start, SECOND exactly those with key
at most start. -/
theorem c5_two_pass_cover (db : List BucketEntry) (s : Nat) :
    (scanBuckets db .FIRST (some s) (some s)
      ++ scanBuckets db .SECOND none (some s)).Perm db
    ∧ (∀ e ∈ scanBuckets db .FIRST (some s) (some s), s < e.key)
    ∧ (∀ e ∈ scanBuckets db .SECOND none (some s), e.key ≤ s) := by
  have h1 : scanBuckets db .FIRST (some s) (some s)
      = db.filter (fun e => decide (s < e.key)) := by
    simp [scanBuckets]
  have h2 : scanBuckets db .SECOND none (some s)
      = db.filter (fun e => !(decide (s < e.key))) := by
    unfold scanBuckets
    apply List.filter_congr
    intro a _
    simp only [← Nat.not_lt, decide_not, Bool.true_and]
  refine ⟨?_, ?_, ?_⟩
  · rw [h1, h2]
    exact List.filter_append_perm _ db
  · intro e he
    rw [h1] at he
    simpa using (List.mem_filter.mp he).2
  · intro e he
    rw [h2] at he
    simpa [Nat.not_lt] using (List.mem_filter.mp he).2

/-- C9: a single unrestricted pass visits every database bucket in
order; filtered by hasNotReadyBucketDocs it yields exactly the
not-ready-bearing buckets in ascending key order, and filtered by
hasReadyBucketDocs exactly the ready-bearing buckets in ascending key
order; over an empty database the iterator is immediately invalid
(visits nothing, in any pass and with any bounds). -/
theorem c9_unrestricted_scan (db : List BucketEntry) (hdb : SortedDB db) :
    scanBuckets db .FIRST none none = db
    ∧ (scanBuckets db .FIRST none none).filter hasNotReadyBucketDocs
        = db.filter hasNotReadyBucketDocs
    ∧ ((scanBuckets db .FIRST none none).filter hasNotReadyBucketDocs).Pairwise
        (fun a b => a.key < b.key)
    ∧ (scanBuckets db .FIRST none none).filter hasReadyBucketDocs
        = db.filter hasReadyBucketDocs
    ∧ ((scanBuckets db .FIRST none none).filter hasReadyBucketDocs).Pairwise
        (fun a b => a.key < b.key)
    ∧ (∀ pass s t, scanBuckets [] pass s t = []) := by
  have hfull : scanBuckets db .FIRST none none = db := by
    simp [scanBuckets]
  refine ⟨hfull, by rw [hfull], ?_, by rw [hfull], ?_, ?_⟩
  · rw [hfull]
    exact hdb.sublist (List.filter_sublist _)
  · rw [hfull]
    exact hdb.sublist (List.filter_sublist _)
  · intro pass s t
    simp [scanBuckets]

/-- Witness for C9: evaluated on the test-fixture database. -/
theorem c9_unrestricted_scan_witness :
    SortedDB testDb
    ∧ (scanBuckets testDb .FIRST none none = testDb
      ∧ (scanBuckets testDb .FIRST none none).filter hasNotReadyBucketDocs
          = testDb.filter hasNotReadyBucketDocs
      ∧ ((scanBuckets testDb .FIRST none none).filter hasNotReadyBucketDocs).Pairwise
          (fun a b => a.key < b.key)
      ∧ (scanBuckets testDb .FIRST none none).filter hasReadyBucketDocs
          = testDb.filter hasReadyBucketDocs
      ∧ ((scanBuckets testDb .FIRST none none).filter hasReadyBucketDocs).Pairwise
          (fun a b => a.key < b.key)
      ∧ (∀ pass s t, scanBuckets [] pass s t = [])) :=
  ⟨by decide, c9_unrestricted_scan testDb (by decide)⟩

/-- A source-collection document, identified by its local document id
(the payload identity is abstracted into the lid: the retriever maps a
lid to its full document). -/
structure Doc where
  lid : Nat
deriving DecidableEq, Repr

/-- Modelled from the spec (§3): an immutable move record of {bucket,
source sub-db id, target sub-db id, document}, created by the mover
and handed to the move handler. -/
structure MoveOperation where
  bucket : BucketId
  sourceSubDbId : Nat
  targetSubDbId : Nat
  doc : Doc
deriving DecidableEq, Repr

/-- Modelled from the spec (§4.3): the PendingLidTracker's observable
state is the multiset of local ids with outstanding commit tokens
(reference counted: one list occurrence per outstanding token);
`is_pending lid` holds while at least one token for `lid` is
outstanding.  `produce` conses a lid, releasing a token erases one
occurrence. -/
def isPending (pending : List Nat) (lid : Nat) : Bool :=
  pending.contains lid

/-- Modelled from the spec (§4.6) and bucketmover_common.h: the whole
observable state of one mover session — the bound bucket and sub-db
ids, the bucket's source-collection documents in their fixed
intra-bucket order, the cursor (documents already moved), the done
flag, the BucketDatabase cached flag for the bound bucket, the test
handler's recorded state (`_moves` and `_numCachedBuckets` of
MyMoveHandler) and the test limiter's counter (`beginOpCount` of
MyMoveOperationLimiter, bucketmover_common.h lines 22-31, which
increments once per beginOperation call). -/
structure MoverState where
  bucket : BucketId
  sourceSubDbId : Nat
  targetSubDbId : Nat
  docs : List Doc
  cursor : Nat
  bucketDone : Bool
  cachedInDb : Bool
  handlerMoves : List MoveOperation
  numCachedBuckets : Nat
  beginOpCount : Nat
deriving DecidableEq, Repr

/-- Modelled from the spec (§4.6 setup_for_bucket): binds the mover to
a bucket and collection pair, resetting the document cursor to the
first document of the bucket; the session's handler record and limiter
counter start empty (the test fixtures construct fresh collaborators
per session). -/
def setupForBucket (bucket : BucketId) (sourceSubDbId targetSubDbId : Nat)
    (docs : List Doc) : MoverState :=
  { bucket := bucket
    sourceSubDbId := sourceSubDbId
    targetSubDbId := targetSubDbId
    docs := docs
    cursor := 0
    bucketDone := false
    cachedInDb := false
    handlerMoves := []
    numCachedBuckets := 0
    beginOpCount := 0 }

/-- The MoveOperation the mover constructs for one document of the
bound bucket (spec §4.6 step 2). -/
def mkMoveOp (s : MoverState) (d : Doc) : MoveOperation :=
  { bucket := s.bucket
    sourceSubDbId := s.sourceSubDbId
    targetSubDbId := s.targetSubDbId
    doc := d }

/-- Modelled from the spec (§4.6 move_documents): attempt to move up
to `maxDocsToMove` documents of the bound bucket, in cursor order.
The candidate batch is the next min(max, remaining) documents; if a
candidate is found pending commit the call stalls — no document moved,
cursor unchanged, `false` returned.  Otherwise, for each batch
document a limiter token is obtained (beginOpCount), the bucket is
marked cached on the first move (before the handler sees the move, so
every handled move observes the cached flag set), a MoveOperation is
built and handed to the handler, and the cursor advances; the done
flag is set when the call exhausts the bucket, and the cached flag is
cleared once the bucket is fully drained.  The return value is pinned
by the tests (scaniterator_test.cpp lines 91-106 and 118-138): `false`
exactly when the call stalled — a non-stalled call returns `true` even
when documents remain. -/
def moveDocuments (pending : List Nat) (maxDocsToMove : Nat)
    (s : MoverState) : MoverState × Bool :=
  if s.bucketDone then
    (s, true)
  else
    let remaining := s.docs.drop s.cursor
    let batch := remaining.take maxDocsToMove
    if batch.any (fun d => isPending pending d.lid) then
      (s, false)
    else
      let done := decide (remaining.length ≤ maxDocsToMove)
      ({ s with
          cursor := s.cursor + batch.length
          bucketDone := done
          cachedInDb := if done then false else (s.cachedInDb || !batch.isEmpty)
          handlerMoves := s.handlerMoves ++ batch.map (mkMoveOp s)
          numCachedBuckets := s.numCachedBuckets + batch.length
          beginOpCount := s.beginOpCount + batch.length }, true)

/-- One maintenance tick: the state after a `moveDocuments` call. -/
def stepMover (pending : List Nat) (maxDocsToMove : Nat)
    (s : MoverState) : MoverState :=
  (moveDocuments pending maxDocsToMove s).1

/-- The five documents of user bucket 1 in the MoveFixture
(MySubDbTwoBuckets inserts lids 1-5 for bucket 1,
scaniterator_test.cpp lines 16-32). -/
def testDocs : List Doc :=
  [⟨1⟩, ⟨2⟩, ⟨3⟩, ⟨4⟩, ⟨5⟩]

/-- The bucket of user 1 in the MoveFixture (representative id). -/
def testBucket : BucketId :=
  ⟨16, 1⟩

/-- Helper: a call on a not-done bucket whose candidate batch holds a
pending-commit document stalls, leaving the state unchanged. -/
theorem moveDocuments_stall_eq (pending : List Nat) (m : Nat) (s : MoverState)
    (hnd : s.bucketDone = false)
    (hany : ((s.docs.drop s.cursor).take m).any
        (fun d => isPending pending d.lid) = true) :
    moveDocuments pending m s = (s, false) := by
  simp [moveDocuments, hnd, hany]

/-- Helper: a call on a not-done bucket with no pending-commit
document in the candidate batch moves the whole batch. -/
theorem moveDocuments_go_eq (pending : List Nat) (m : Nat) (s : MoverState)
    (hnd : s.bucketDone = false)
    (hany : ((s.docs.drop s.cursor).take m).any
        (fun d => isPending pending d.lid) = false) :
    moveDocuments pending m s =
      ({ s with
          cursor := s.cursor + ((s.docs.drop s.cursor).take m).length
          bucketDone := decide ((s.docs.drop s.cursor).length ≤ m)
          cachedInDb :=
            if decide ((s.docs.drop s.cursor).length ≤ m) then false
            else (s.cachedInDb || !((s.docs.drop s.cursor).take m).isEmpty)
          handlerMoves :=
            s.handlerMoves ++ ((s.docs.drop s.cursor).take m).map (mkMoveOp s)
          numCachedBuckets :=
            s.numCachedBuckets + ((s.docs.drop s.cursor).take m).length
          beginOpCount :=
            s.beginOpCount + ((s.docs.drop s.cursor).take m).length }, true) := by
  simp [moveDocuments, hnd, hany]

/-- Helper: a call on a done bucket is a no-op returning true. -/
theorem moveDocuments_done_eq (pending : List Nat) (m : Nat) (s : MoverState)
    (hd : s.bucketDone = true) :
    moveDocuments pending m s = (s, true) := by
  simp [moveDocuments, hd]

/-- Sanity: the mover model reproduces the assertions of
scaniterator_test.cpp "require that we can move all documents" (lines
79-89), "require that move is stalled if document is pending commit"
(lines 91-106), "require that bucket is cached when
IDocumentMoveHandler handles move operation" (lines 108-116) and
"require that we can move documents in several steps" (lines 118-138)
on the five-document fixture bucket with source sub-db 6 and target
sub-db 9. -/
theorem mover_model_matches_tests :
    ((moveDocuments [] 5 (setupForBucket testBucket 6 9 testDocs)).2 = true
      ∧ (stepMover [] 5 (setupForBucket testBucket 6 9 testDocs)).bucketDone = true
      ∧ (stepMover [] 5 (setupForBucket testBucket 6 9 testDocs)).handlerMoves.length = 5
      ∧ (stepMover [] 5 (setupForBucket testBucket 6 9 testDocs)).beginOpCount = 5)
    ∧ (moveDocuments [1] 5 (setupForBucket testBucket 6 9 testDocs)
        = (setupForBucket testBucket 6 9 testDocs, false))
    ∧ ((stepMover [] 5 (setupForBucket testBucket 6 9 testDocs)).numCachedBuckets = 5
      ∧ (stepMover [] 5 (setupForBucket testBucket 6 9 testDocs)).cachedInDb = false)
    ∧ ((moveDocuments [] 2 ((stepMover [] 2)^[1] (setupForBucket testBucket 6 9 testDocs))).2 = true
      ∧ ((stepMover [] 2)^[2] (setupForBucket testBucket 6 9 testDocs)).bucketDone = false
      ∧ ((stepMover [] 2)^[2] (setupForBucket testBucket 6 9 testDocs)).handlerMoves.length = 4
      ∧ ((stepMover [] 2)^[3] (setupForBucket testBucket 6 9 testDocs)).bucketDone = true
      ∧ ((stepMover [] 2)^[4] (setupForBucket testBucket 6 9 testDocs)).handlerMoves.length = 5) := by
  decide

/-- C1 counterexample: on the five-document fixture bucket with quota
2 (no contention), the call moves two documents and returns true while
bucketDone() is still false afterwards — exactly the behavior the
repository test asserts (scaniterator_test.cpp lines 126-127) — so the
return value is not equivalent to bucketDone() holding after the
call. -/
theorem c1_return_iff_done_cex :
    ¬ ((moveDocuments [] 2 (setupForBucket testBucket 6 9 testDocs)).2 = true
        ↔ (moveDocuments [] 2 (setupForBucket testBucket 6 9 testDocs)).1.bucketDone
            = true) := by
  decide

/-- C1 amended: for every bound bucket and every quota, moveDocuments
returns false if and only if the call stalled — the bucket was not
already done and one of the next min(quota, remaining) candidate
documents is pending commit; a stalled call leaves the state (cursor
included) unchanged.  A non-stalled call returns true even when
documents remain to be moved. -/
theorem c1_return_value (pending : List Nat) (maxDocs : Nat) (s : MoverState) :
    ((moveDocuments pending maxDocs s).2 = false
      ↔ (s.bucketDone = false
        ∧ ∃ d ∈ (s.docs.drop s.cursor).take maxDocs,
            isPending pending d.lid = true))
    ∧ ((moveDocuments pending maxDocs s).2 = false
        → (moveDocuments pending maxDocs s).1 = s) := by
  by_cases hd : s.bucketDone = true
  · rw [moveDocuments_done_eq pending maxDocs s hd]
    simp [hd]
  · have hnd : s.bucketDone = false := by
      cases h : s.bucketDone
      · rfl
      · exact absurd h hd
    by_cases hany : ((s.docs.drop s.cursor).take maxDocs).any
        (fun d => isPending pending d.lid) = true
    · rw [moveDocuments_stall_eq pending maxDocs s hnd hany]
      simp only [List.any_eq_true] at hany
      simp [hnd, hany]
    · have hany' : ((s.docs.drop s.cursor).take maxDocs).any
          (fun d => isPending pending d.lid) = false := by
        cases h : ((s.docs.drop s.cursor).take maxDocs).any
            (fun d => isPending pending d.lid)
        · rfl
        · exact absurd h hany
      rw [moveDocuments_go_eq pending maxDocs s hnd hany']
      simp only [List.any_eq_true] at hany
      simp [hnd, hany]

/-- C3: if the first not-yet-moved document of the bound bucket is
pending commit, moveDocuments (with a nonzero quota) returns false
having moved zero documents and leaving the state — cursor included —
unchanged; a subsequent call after the token is released, with quota
covering the remainder, completes the bucket and returns true,
handing the handler exactly the remaining documents in source order:
the stalled document is the first one re-attempted, no document
skipped, none duplicated. -/
theorem c3_stall_then_resume (pending pending' : List Nat)
    (maxDocs maxDocs' : Nat) (s : MoverState) (d : Doc) (rest : List Doc)
    (hnd : s.bucketDone = false)
    (hrem : s.docs.drop s.cursor = d :: rest)
    (hq : 1 ≤ maxDocs)
    (hpend : isPending pending d.lid = true)
    (hfree : ∀ x ∈ d :: rest, isPending pending' x.lid = false)
    (hq' : (d :: rest).length ≤ maxDocs') :
    moveDocuments pending maxDocs s = (s, false)
    ∧ (moveDocuments pending' maxDocs' s).2 = true
    ∧ (moveDocuments pending' maxDocs' s).1.bucketDone = true
    ∧ (moveDocuments pending' maxDocs' s).1.handlerMoves
        = s.handlerMoves ++ (d :: rest).map (mkMoveOp s) := by
  obtain ⟨m, rfl⟩ : ∃ m, maxDocs = m + 1 := ⟨maxDocs - 1, by omega⟩
  have htake' : (s.docs.drop s.cursor).take maxDocs' = d :: rest := by
    rw [hrem]
    exact List.take_of_length_le hq'
  have hany' : ((s.docs.drop s.cursor).take maxDocs').any
      (fun x => isPending pending' x.lid) = false := by
    rw [htake', List.any_eq_false]
    intro x hx
    simp [hfree x hx]
  have hgo := moveDocuments_go_eq pending' maxDocs' s hnd hany'
  refine ⟨?_, ?_, ?_, ?_⟩
  · apply moveDocuments_stall_eq pending (m + 1) s hnd
    rw [hrem, List.take_succ_cons, List.any_cons, hpend]
    simp
  · rw [hgo]
  · rw [hgo]
    show decide ((s.docs.drop s.cursor).length ≤ maxDocs') = true
    rw [hrem]
    exact decide_eq_true hq'
  · rw [hgo]
    show s.handlerMoves ++ ((s.docs.drop s.cursor).take maxDocs').map (mkMoveOp s)
        = s.handlerMoves ++ (d :: rest).map (mkMoveOp s)
    rw [htake']

/-- Witness for C3: the scenario of scaniterator_test.cpp lines
91-106 — five documents, lid 1 pending during the first call, quota 5
on both calls. -/
theorem c3_stall_then_resume_witness :
    ((setupForBucket testBucket 6 9 testDocs).bucketDone = false
      ∧ (setupForBucket testBucket 6 9 testDocs).docs.drop
          (setupForBucket testBucket 6 9 testDocs).cursor
          = Doc.mk 1 :: [⟨2⟩, ⟨3⟩, ⟨4⟩, ⟨5⟩]
      ∧ 1 ≤ 5
      ∧ isPending [1] (Doc.mk 1).lid = true
      ∧ (∀ x ∈ Doc.mk 1 :: [⟨2⟩, ⟨3⟩, ⟨4⟩, ⟨5⟩], isPending [] x.lid = false)
      ∧ (Doc.mk 1 :: [⟨2⟩, ⟨3⟩, ⟨4⟩, ⟨5⟩]).length ≤ 5)
    ∧ (moveDocuments [1] 5 (setupForBucket testBucket 6 9 testDocs)
        = (setupForBucket testBucket 6 9 testDocs, false)
      ∧ (moveDocuments [] 5 (setupForBucket testBucket 6 9 testDocs)).2 = true
      ∧ (moveDocuments [] 5 (setupForBucket testBucket 6 9 testDocs)).1.bucketDone = true
      ∧ (moveDocuments [] 5 (setupForBucket testBucket 6 9 testDocs)).1.handlerMoves
          = (setupForBucket testBucket 6 9 testDocs).handlerMoves
            ++ (Doc.mk 1 :: [⟨2⟩, ⟨3⟩, ⟨4⟩, ⟨5⟩]).map
                (mkMoveOp (setupForBucket testBucket 6 9 testDocs))) :=
  ⟨⟨by decide, by decide, by decide, by decide, by decide, by decide⟩,
    c3_stall_then_resume [1] [] 5 5 (setupForBucket testBucket 6 9 testDocs)
      (Doc.mk 1) [⟨2⟩, ⟨3⟩, ⟨4⟩, ⟨5⟩]
      (by decide) (by decide) (by decide) (by decide) (by decide) (by decide)⟩

/-- C4: for every bucket with N documents and no pending-commit
contention, moveDocuments(N) returns true, moves all N documents in
source order (the handler's record, mapped to its documents, is
exactly the source document list), every recorded MoveOperation
carries the configured source sub-db id, target sub-db id and bucket,
and exactly one limiter token is obtained per started move: N
beginOperation calls in total. -/
theorem c4_move_all (b : BucketId) (srcId tgtId : Nat) (docs : List Doc)
    (pending : List Nat)
    (hfree : ∀ x ∈ docs, isPending pending x.lid = false) :
    (moveDocuments pending docs.length (setupForBucket b srcId tgtId docs)).2 = true
    ∧ (stepMover pending docs.length (setupForBucket b srcId tgtId docs)).bucketDone
        = true
    ∧ (stepMover pending docs.length (setupForBucket b srcId tgtId docs)).handlerMoves.map
        (fun op => op.doc) = docs
    ∧ (∀ op ∈ (stepMover pending docs.length
          (setupForBucket b srcId tgtId docs)).handlerMoves,
        op.sourceSubDbId = srcId ∧ op.targetSubDbId = tgtId ∧ op.bucket = b)
    ∧ (stepMover pending docs.length
          (setupForBucket b srcId tgtId docs)).beginOpCount = docs.length := by
  have hnd : (setupForBucket b srcId tgtId docs).bucketDone = false := rfl
  have htake : (((setupForBucket b srcId tgtId docs).docs.drop
      (setupForBucket b srcId tgtId docs).cursor).take docs.length) = docs := by
    simp [setupForBucket]
  have hany : (((setupForBucket b srcId tgtId docs).docs.drop
      (setupForBucket b srcId tgtId docs).cursor).take docs.length).any
      (fun x => isPending pending x.lid) = false := by
    rw [htake, List.any_eq_false]
    intro x hx
    simp [hfree x hx]
  have hgo := moveDocuments_go_eq pending docs.length
    (setupForBucket b srcId tgtId docs) hnd hany
  refine ⟨by rw [hgo], ?_, ?_, ?_, ?_⟩
  · simp only [stepMover, hgo]
    simp [setupForBucket]
  · simp only [stepMover, hgo, htake]
    simp [setupForBucket, mkMoveOp, Function.comp_def]
  · intro op hop
    simp only [stepMover, hgo, htake] at hop
    simp only [setupForBucket, List.nil_append] at hop
    obtain ⟨x, _, rfl⟩ := List.mem_map.mp hop
    exact ⟨rfl, rfl, rfl⟩
  · simp only [stepMover, hgo, htake]
    simp [setupForBucket]

/-- Witness for C4: the scenario of scaniterator_test.cpp lines 79-89
— five documents, no contention, quota 5. -/
theorem c4_move_all_witness :
    (∀ x ∈ testDocs, isPending [] x.lid = false)
    ∧ ((moveDocuments [] testDocs.length
          (setupForBucket testBucket 6 9 testDocs)).2 = true
      ∧ (stepMover [] testDocs.length
          (setupForBucket testBucket 6 9 testDocs)).bucketDone = true
      ∧ (stepMover [] testDocs.length
          (setupForBucket testBucket 6 9 testDocs)).handlerMoves.map
            (fun op => op.doc) = testDocs
      ∧ (∀ op ∈ (stepMover [] testDocs.length
            (setupForBucket testBucket 6 9 testDocs)).handlerMoves,
          op.sourceSubDbId = 6 ∧ op.targetSubDbId = 9 ∧ op.bucket = testBucket)
      ∧ (stepMover [] testDocs.length
            (setupForBucket testBucket 6 9 testDocs)).beginOpCount
          = testDocs.length) :=
  ⟨by decide, c4_move_all testBucket 6 9 testDocs [] (by decide)⟩

/-- C7: with a fresh session bound to a nonempty bucket and no
contention, a partial call (nonzero quota smaller than the bucket)
leaves the bucket's BucketDatabase cached flag set — the mover sets it
on the first move of the session, before the handler sees the move —
while after the call that drains the bucket the cached flag is false
(the cache entry is cleared) and the handler observed the flag set on
every one of its moves. -/
theorem c7_cached_flag (b : BucketId) (srcId tgtId : Nat) (d : Doc)
    (rest : List Doc) (pending : List Nat) (k : Nat)
    (hfree : ∀ x ∈ d :: rest, isPending pending x.lid = false)
    (hk1 : 1 ≤ k) (hk2 : k < (d :: rest).length) :
    (stepMover pending k (setupForBucket b srcId tgtId (d :: rest))).cachedInDb
        = true
    ∧ (stepMover pending (d :: rest).length
          (setupForBucket b srcId tgtId (d :: rest))).cachedInDb = false
    ∧ (stepMover pending (d :: rest).length
          (setupForBucket b srcId tgtId (d :: rest))).bucketDone = true
    ∧ (stepMover pending (d :: rest).length
          (setupForBucket b srcId tgtId (d :: rest))).numCachedBuckets
        = (d :: rest).length := by
  have hnd : (setupForBucket b srcId tgtId (d :: rest)).bucketDone = false := rfl
  have hdrop : ((setupForBucket b srcId tgtId (d :: rest)).docs.drop
      (setupForBucket b srcId tgtId (d :: rest)).cursor) = d :: rest := rfl
  have hanyk : (((setupForBucket b srcId tgtId (d :: rest)).docs.drop
      (setupForBucket b srcId tgtId (d :: rest)).cursor).take k).any
      (fun x => isPending pending x.lid) = false := by
    rw [hdrop, List.any_eq_false]
    intro x hx
    simp [hfree x (List.mem_of_mem_take hx)]
  have hanyN : (((setupForBucket b srcId tgtId (d :: rest)).docs.drop
      (setupForBucket b srcId tgtId (d :: rest)).cursor).take
        (d :: rest).length).any (fun x => isPending pending x.lid) = false := by
    rw [hdrop, List.any_eq_false]
    intro x hx
    simp [hfree x (List.mem_of_mem_take hx)]
  have hgok := moveDocuments_go_eq pending k
    (setupForBucket b srcId tgtId (d :: rest)) hnd hanyk
  have hgoN := moveDocuments_go_eq pending (d :: rest).length
    (setupForBucket b srcId tgtId (d :: rest)) hnd hanyN
  obtain ⟨m, rfl⟩ : ∃ m, k = m + 1 := ⟨k - 1, by omega⟩
  refine ⟨?_, ?_, ?_, ?_⟩
  · simp only [stepMover, hgok, hdrop]
    have hlt : ¬ ((d :: rest).length ≤ m + 1) := by omega
    simp only [List.length_cons] at hk2
    simp [setupForBucket, hlt, List.take_succ_cons]
    omega
  · simp only [stepMover, hgoN, hdrop]
    simp
  · simp only [stepMover, hgoN, hdrop]
    simp
  · simp only [stepMover, hgoN, hdrop]
    simp [setupForBucket, List.take_of_length_le (le_refl (d :: rest).length)]

/-- Witness for C7: the scenario of scaniterator_test.cpp lines
108-116 (full drain of the five-document bucket) together with a
partial call of quota 2. -/
theorem c7_cached_flag_witness :
    ((∀ x ∈ Doc.mk 1 :: [⟨2⟩, ⟨3⟩, ⟨4⟩, ⟨5⟩], isPending [] x.lid = false)
      ∧ 1 ≤ 2 ∧ 2 < (Doc.mk 1 :: [⟨2⟩, ⟨3⟩, ⟨4⟩, ⟨5⟩]).length)
    ∧ ((stepMover [] 2 (setupForBucket testBucket 6 9
          (Doc.mk 1 :: [⟨2⟩, ⟨3⟩, ⟨4⟩, ⟨5⟩]))).cachedInDb = true
      ∧ (stepMover [] (Doc.mk 1 :: [⟨2⟩, ⟨3⟩, ⟨4⟩, ⟨5⟩]).length
          (setupForBucket testBucket 6 9
            (Doc.mk 1 :: [⟨2⟩, ⟨3⟩, ⟨4⟩, ⟨5⟩]))).cachedInDb = false
      ∧ (stepMover [] (Doc.mk 1 :: [⟨2⟩, ⟨3⟩, ⟨4⟩, ⟨5⟩]).length
          (setupForBucket testBucket 6 9
            (Doc.mk 1 :: [⟨2⟩, ⟨3⟩, ⟨4⟩, ⟨5⟩]))).bucketDone = true
      ∧ (stepMover [] (Doc.mk 1 :: [⟨2⟩, ⟨3⟩, ⟨4⟩, ⟨5⟩]).length
          (setupForBucket testBucket 6 9
            (Doc.mk 1 :: [⟨2⟩, ⟨3⟩, ⟨4⟩, ⟨5⟩]))).numCachedBuckets
        = (Doc.mk 1 :: [⟨2⟩, ⟨3⟩, ⟨4⟩, ⟨5⟩]).length) :=
  ⟨⟨by decide, by decide, by decide⟩,
    c7_cached_flag testBucket 6 9 (Doc.mk 1) [⟨2⟩, ⟨3⟩, ⟨4⟩, ⟨5⟩] [] 2
      (by decide) (by decide) (by decide)⟩

/-- C10: a moveDocuments call that stalls on a pending-commit
document acquires no limiter token — the pending-commit check precedes
token acquisition — so across a stall followed by a successful retry
on a bucket with N documents exactly N limiter tokens are obtained in
total, not N plus one per stalled attempt. -/
theorem c10_no_token_on_stall (b : BucketId) (srcId tgtId : Nat) (d : Doc)
    (rest : List Doc) (pending pending' : List Nat) (maxDocs maxDocs' : Nat)
    (hq : 1 ≤ maxDocs)
    (hpend : isPending pending d.lid = true)
    (hfree : ∀ x ∈ d :: rest, isPending pending' x.lid = false)
    (hq' : (d :: rest).length ≤ maxDocs') :
    (stepMover pending maxDocs
        (setupForBucket b srcId tgtId (d :: rest))).beginOpCount = 0
    ∧ (moveDocuments pending maxDocs
        (setupForBucket b srcId tgtId (d :: rest))).2 = false
    ∧ (stepMover pending' maxDocs'
        (stepMover pending maxDocs
          (setupForBucket b srcId tgtId (d :: rest)))).beginOpCount
        = (d :: rest).length
    ∧ (stepMover pending' maxDocs'
        (stepMover pending maxDocs
          (setupForBucket b srcId tgtId (d :: rest)))).bucketDone = true := by
  have hnd : (setupForBucket b srcId tgtId (d :: rest)).bucketDone = false := rfl
  have hdrop : ((setupForBucket b srcId tgtId (d :: rest)).docs.drop
      (setupForBucket b srcId tgtId (d :: rest)).cursor) = d :: rest := rfl
  obtain ⟨m, rfl⟩ : ∃ m, maxDocs = m + 1 := ⟨maxDocs - 1, by omega⟩
  have hstall : moveDocuments pending (m + 1)
      (setupForBucket b srcId tgtId (d :: rest))
      = (setupForBucket b srcId tgtId (d :: rest), false) := by
    apply moveDocuments_stall_eq pending (m + 1) _ hnd
    rw [hdrop, List.take_succ_cons, List.any_cons, hpend]
    simp
  have hstep : stepMover pending (m + 1) (setupForBucket b srcId tgtId (d :: rest))
      = setupForBucket b srcId tgtId (d :: rest) := by
    simp [stepMover, hstall]
  have hany' : (((setupForBucket b srcId tgtId (d :: rest)).docs.drop
      (setupForBucket b srcId tgtId (d :: rest)).cursor).take maxDocs').any
      (fun x => isPending pending' x.lid) = false := by
    rw [hdrop, List.any_eq_false]
    intro x hx
    simp [hfree x (List.mem_of_mem_take hx)]
  have hgo := moveDocuments_go_eq pending' maxDocs'
    (setupForBucket b srcId tgtId (d :: rest)) hnd hany'
  refine ⟨?_, ?_, ?_, ?_⟩
  · rw [hstep]
    rfl
  · rw [hstall]
  · rw [hstep]
    simp only [stepMover, hgo, hdrop]
    simp [setupForBucket, List.take_of_length_le hq']
  · rw [hstep]
    simp only [stepMover, hgo, hdrop]
    simp only [List.length_cons] at hq'
    simp
    omega

/-- Witness for C10: the scenario of scaniterator_test.cpp lines
91-106 with the limiter count of bucketmover_common.h lines 22-31 —
the stalled call leaves beginOpCount at 0, the retry ends at 5. -/
theorem c10_no_token_on_stall_witness :
    (1 ≤ 5
      ∧ isPending [1] (Doc.mk 1).lid = true
      ∧ (∀ x ∈ Doc.mk 1 :: [⟨2⟩, ⟨3⟩, ⟨4⟩, ⟨5⟩], isPending [] x.lid = false)
      ∧ (Doc.mk 1 :: [⟨2⟩, ⟨3⟩, ⟨4⟩, ⟨5⟩]).length ≤ 5)
    ∧ ((stepMover [1] 5 (setupForBucket testBucket 6 9
          (Doc.mk 1 :: [⟨2⟩, ⟨3⟩, ⟨4⟩, ⟨5⟩]))).beginOpCount = 0
      ∧ (moveDocuments [1] 5 (setupForBucket testBucket 6 9
          (Doc.mk 1 :: [⟨2⟩, ⟨3⟩, ⟨4⟩, ⟨5⟩]))).2 = false
      ∧ (stepMover [] 5 (stepMover [1] 5 (setupForBucket testBucket 6 9
          (Doc.mk 1 :: [⟨2⟩, ⟨3⟩, ⟨4⟩, ⟨5⟩])))).beginOpCount
          = (Doc.mk 1 :: [⟨2⟩, ⟨3⟩, ⟨4⟩, ⟨5⟩]).length
      ∧ (stepMover [] 5 (stepMover [1] 5 (setupForBucket testBucket 6 9
          (Doc.mk 1 :: [⟨2⟩, ⟨3⟩, ⟨4⟩, ⟨5⟩])))).bucketDone = true) :=
  ⟨⟨by decide, by decide, by decide, by decide⟩,
    c10_no_token_on_stall testBucket 6 9 (Doc.mk 1) [⟨2⟩, ⟨3⟩, ⟨4⟩, ⟨5⟩]
      [1] [] 5 5 (by decide) (by decide) (by decide) (by decide)⟩

/-- The mover state after n maintenance ticks of quota k on a fresh
session (spec §5: cooperative, quota-driven stepping). -/
def iterState (b : BucketId) (srcId tgtId : Nat) (docs : List Doc)
    (pending : List Nat) (k n : Nat) : MoverState :=
  (stepMover pending k)^[n] (setupForBucket b srcId tgtId docs)

/-- Helper invariant: after n quota-k calls on a fresh uncontended
session, the cursor, handler record, limiter count and done flag are
given in closed form. -/
theorem iterState_closed_form (b : BucketId) (srcId tgtId : Nat)
    (docs : List Doc) (pending : List Nat) (k : Nat)
    (hfree : ∀ x ∈ docs, isPending pending x.lid = false) :
    ∀ n : Nat,
      (iterState b srcId tgtId docs pending k n).bucket = b
      ∧ (iterState b srcId tgtId docs pending k n).sourceSubDbId = srcId
      ∧ (iterState b srcId tgtId docs pending k n).targetSubDbId = tgtId
      ∧ (iterState b srcId tgtId docs pending k n).docs = docs
      ∧ (iterState b srcId tgtId docs pending k n).cursor
          = min (n * k) docs.length
      ∧ (iterState b srcId tgtId docs pending k n).handlerMoves
          = (docs.take (n * k)).map (fun x => MoveOperation.mk b srcId tgtId x)
      ∧ (iterState b srcId tgtId docs pending k n).beginOpCount
          = min (n * k) docs.length
      ∧ (iterState b srcId tgtId docs pending k n).bucketDone
          = decide (1 ≤ n ∧ docs.length ≤ n * k) := by
  intro n
  induction n with
  | zero =>
    simp [iterState, setupForBucket]
  | succ n ih =>
    obtain ⟨hb, hsrc, htgt, hdocs, hcur, hmoves, hops, hdone⟩ := ih
    have hstep : iterState b srcId tgtId docs pending k (n + 1)
        = stepMover pending k (iterState b srcId tgtId docs pending k n) := by
      simp [iterState, Function.iterate_succ_apply']
    have hz : n = 0 → n * k = 0 := fun h => by subst h; simp
    have hsucc : (n + 1) * k = n * k + k := Nat.succ_mul n k
    by_cases hdn : 1 ≤ n ∧ docs.length ≤ n * k
    · have hd : (iterState b srcId tgtId docs pending k n).bucketDone = true := by
        rw [hdone]
        exact decide_eq_true hdn
      have hnoop : stepMover pending k (iterState b srcId tgtId docs pending k n)
          = iterState b srcId tgtId docs pending k n := by
        simp [stepMover, moveDocuments_done_eq pending k _ hd]
      rw [hstep, hnoop]
      have h1 : min ((n + 1) * k) docs.length = min (n * k) docs.length := by
        omega
      have h2 : docs.take ((n + 1) * k) = docs.take (n * k) := by
        rw [List.take_of_length_le (by omega), List.take_of_length_le (by omega)]
      refine ⟨hb, hsrc, htgt, hdocs, ?_, ?_, ?_, ?_⟩
      · rw [hcur, h1]
      · rw [hmoves, h2]
      · rw [hops, h1]
      · rw [hdone]
        apply decide_eq_decide.mpr
        omega
    · have hd : (iterState b srcId tgtId docs pending k n).bucketDone = false := by
        rw [hdone]
        exact decide_eq_false hdn
      have hcur' : (iterState b srcId tgtId docs pending k n).cursor = n * k := by
        rw [hcur]
        omega
      have hdropn : ((iterState b srcId tgtId docs pending k n).docs.drop
          (iterState b srcId tgtId docs pending k n).cursor)
          = docs.drop (n * k) := by
        rw [hdocs, hcur']
      have hany : (((iterState b srcId tgtId docs pending k n).docs.drop
          (iterState b srcId tgtId docs pending k n).cursor).take k).any
          (fun x => isPending pending x.lid) = false := by
        rw [hdropn, List.any_eq_false]
        intro x hx
        simp [hfree x (List.mem_of_mem_drop (List.mem_of_mem_take hx))]
      have hgo := moveDocuments_go_eq pending k
        (iterState b srcId tgtId docs pending k n) hd hany
      have hmk : mkMoveOp (iterState b srcId tgtId docs pending k n)
          = fun x => MoveOperation.mk b srcId tgtId x := by
        funext x
        simp [mkMoveOp, hb, hsrc, htgt]
      rw [hstep]
      simp only [stepMover, hgo, hdropn, hmk]
      have hbl : ((docs.drop (n * k)).take k).length
          = min k (docs.length - n * k) := by
        simp [List.length_take, List.length_drop]
      have hdl : (docs.drop (n * k)).length = docs.length - n * k := by
        simp [List.length_drop]
      refine ⟨hb, hsrc, htgt, hdocs, ?_, ?_, ?_, ?_⟩
      · rw [hcur', hbl]
        omega
      · rw [hmoves, ← List.map_append, ← List.take_add, hsucc]
      · rw [hops, hbl]
        omega
      · rw [hdl]
        apply decide_eq_decide.mpr
        omega

/-- C6: on a bucket with N documents, no contention, and a per-call
quota k (nonzero, smaller than N), repeated moveDocuments(k) calls
move exactly min(k, remaining) documents per call, the handler's
record after any number of calls is exactly the moved prefix of the
bucket's documents in source order (intra-bucket order preserved
across calls), bucketDone() is true exactly when all N documents have
been moved, and once the bucket is done a further call changes
nothing — no additional handler invocation, no additional limiter
token. -/
theorem c6_stepwise_drain (b : BucketId) (srcId tgtId : Nat)
    (docs : List Doc) (pending : List Nat) (k : Nat)
    (hfree : ∀ x ∈ docs, isPending pending x.lid = false)
    (hk1 : 1 ≤ k) (hkN : k < docs.length) :
    ∀ n : Nat,
      ((iterState b srcId tgtId docs pending k (n + 1)).handlerMoves.length
          = (iterState b srcId tgtId docs pending k n).handlerMoves.length
            + min k (docs.length
                - (iterState b srcId tgtId docs pending k n).handlerMoves.length))
      ∧ ((iterState b srcId tgtId docs pending k n).handlerMoves.map
            (fun op => op.doc) = docs.take (n * k))
      ∧ ((iterState b srcId tgtId docs pending k n).bucketDone = true
          ↔ (iterState b srcId tgtId docs pending k n).handlerMoves.length
              = docs.length)
      ∧ ((iterState b srcId tgtId docs pending k n).bucketDone = true
          → stepMover pending k (iterState b srcId tgtId docs pending k n)
              = iterState b srcId tgtId docs pending k n) := by
  intro n
  obtain ⟨hb, hsrc, htgt, hdocs, hcur, hmoves, hops, hdone⟩ :=
    iterState_closed_form b srcId tgtId docs pending k hfree n
  obtain ⟨_, _, _, _, _, hmoves1, _, _⟩ :=
    iterState_closed_form b srcId tgtId docs pending k hfree (n + 1)
  have hz : n = 0 → n * k = 0 := fun h => by subst h; simp
  have hsucc : (n + 1) * k = n * k + k := Nat.succ_mul n k
  have hlen : (iterState b srcId tgtId docs pending k n).handlerMoves.length
      = min (n * k) docs.length := by
    rw [hmoves, List.length_map, List.length_take]
  have hlen1 : (iterState b srcId tgtId docs pending k (n + 1)).handlerMoves.length
      = min ((n + 1) * k) docs.length := by
    rw [hmoves1, List.length_map, List.length_take]
  refine ⟨?_, ?_, ?_, ?_⟩
  · rw [hlen, hlen1]
    omega
  · rw [hmoves, List.map_map]
    have : (fun op => op.doc) ∘ (fun x => MoveOperation.mk b srcId tgtId x)
        = fun x => x := by
      funext x
      rfl
    rw [this, List.map_id']
  · rw [hdone, hlen]
    constructor
    · intro h
      have := of_decide_eq_true h
      omega
    · intro h
      apply decide_eq_true
      omega
  · intro hd
    simp [stepMover, moveDocuments_done_eq pending k _ hd]

/-- Witness for C6: the scenario of scaniterator_test.cpp lines
118-138 — five documents drained with quota 2 — evaluated after two
calls (four documents moved, not yet done). -/
theorem c6_stepwise_drain_witness :
    ((∀ x ∈ testDocs, isPending [] x.lid = false) ∧ 1 ≤ 2 ∧ 2 < testDocs.length)
    ∧ (((iterState testBucket 6 9 testDocs [] 2 3).handlerMoves.length
          = (iterState testBucket 6 9 testDocs [] 2 2).handlerMoves.length
            + min 2 (testDocs.length
                - (iterState testBucket 6 9 testDocs [] 2 2).handlerMoves.length))
      ∧ ((iterState testBucket 6 9 testDocs [] 2 2).handlerMoves.map
            (fun op => op.doc) = testDocs.take (2 * 2))
      ∧ ((iterState testBucket 6 9 testDocs [] 2 2).bucketDone = true
          ↔ (iterState testBucket 6 9 testDocs [] 2 2).handlerMoves.length
              = testDocs.length)
      ∧ ((iterState testBucket 6 9 testDocs [] 2 2).bucketDone = true
          → stepMover [] 2 (iterState testBucket 6 9 testDocs [] 2 2)
              = iterState testBucket 6 9 testDocs [] 2 2)) :=
  ⟨⟨by decide, by decide, by decide⟩,
    c6_stepwise_drain testBucket 6 9 testDocs [] 2 (by decide) (by decide)
      (by decide) 2⟩

end Vespa
